import Mathlib

/-!
Shallow embedding of the rust-backend repository (src/main.rs, src/router.rs,
src/db.rs) and proofs of the spec claims about it.

Conventions:
- Rust `&str` / `String` values are Lean `String`; byte-level operations of the
  source (which always act on valid UTF-8 and ASCII patterns) are modelled as
  operations on the underlying character list `String.data`.
- The async functions of the source are pure: each is a function from its
  observable inputs (the bytes read from the socket, the accept result, ...)
  to its observable outputs (the response value, the bytes written, ...).
-/

namespace RustBackend

/-- Constant status line from src/router.rs line 7. -/
def HTTP_OK : String := "HTTP/1.1 200 OK\r\n"

/-- Constant status line from src/router.rs line 8. -/
def HTTP_NOT_FOUND : String := "HTTP/1.1 404 Not Found\r\n"

/-- Constant status line from src/router.rs line 9. -/
def HTTP_INTERNAL_ERROR : String := "HTTP/1.1 500 Internal Server Error\r\n"

/-- Constant header line from src/router.rs line 10. -/
def CONTENT_TYPE_JSON : String := "Content-Type: application/json\r\n"

/-- Constant header fragment from src/router.rs line 11. -/
def CONTENT_LENGTH : String := "Content-Length: "

/-- Carriage-return line-feed pair. -/
def CRLF : String := "\r\n"

/-- Worker for `splitWhitespace`: `acc` holds the reversed characters of the
token currently being scanned. Models Rust `str::split_whitespace`, which
yields the maximal non-whitespace runs of the string. -/
def wsAux (acc : List Char) : List Char → List (List Char)
  | [] => match acc with
    | [] => []
    | _ => [acc.reverse]
  | c :: cs =>
    if c.isWhitespace then
      match acc with
      | [] => wsAux [] cs
      | _ => acc.reverse :: wsAux [] cs
    else wsAux (c :: acc) cs

/-- Model of Rust `str::split_whitespace().collect::<Vec<_>>()` (src/router.rs
line 110): the list of maximal whitespace-free runs. -/
def splitWhitespace (s : String) : List String :=
  (wsAux [] s.data).map String.mk

/-- Model of Rust `request.lines().next().unwrap_or("")` (src/router.rs line
106): the characters before the first line feed, with one carriage return
stripped from the end; when the string has no line feed it is returned whole,
and the empty string yields the `unwrap_or` default `""`. -/
def firstLine (s : String) : String :=
  if s.data.contains '\n' then
    let l := s.data.takeWhile (fun c => c ≠ '\n')
    String.mk (if l.getLast? = some '\r' then l.dropLast else l)
  else s

/-- Model of Rust `str::starts_with` on valid UTF-8: character-list prefix
test (src/router.rs line 139). -/
def starts_with (s pre : String) : Bool :=
  pre.data.isPrefixOf s.data

/-- Model of `path.strip_prefix("/users/").unwrap_or("")` (src/router.rs line
145): drop the 7 characters of `"/users/"` when it is a prefix, else `""`. -/
def strip_users (path : String) : String :=
  if starts_with path "/users/" then String.mk (path.data.drop 7) else ""

/-- Characters of the header/body separator `"\r\n\r\n"`. -/
def sepL : List Char := ['\r', '\n', '\r', '\n']

/-- Worker for `extract_body_from_request`: scan for the first position where
`sepL` is a prefix of the remaining suffix (Rust `str::find`) and return what
follows it. -/
def extractBodyAux : List Char → Option (List Char)
  | [] => none
  | c :: cs =>
    if sepL.isPrefixOf (c :: cs) then some ((c :: cs).drop 4)
    else extractBodyAux cs

/-- Model of `extract_body_from_request` (src/router.rs lines 174-180): the
text after the first `"\r\n\r\n"`, or `""` when there is none. -/
def extract_body_from_request (request : String) : String :=
  match extractBodyAux request.data with
  | some body => String.mk body
  | none => ""

/-- Triple returned by every route handler in src/router.rs:
`(&'static str, &'static str, String)` = (status line, content type, body). -/
structure RouteResponse where
  status : String
  content_type : String
  body : String
deriving DecidableEq, Repr

/-- Handler for `GET /users` (src/router.rs lines 183-186). -/
def handle_get_all_users : RouteResponse :=
  ⟨HTTP_OK, CONTENT_TYPE_JSON, "\x7b\"users\": []\x7d"⟩

/-- Handler for `GET /users/{id}` (src/router.rs lines 188-194): the id is
spliced verbatim into the JSON body. -/
def handle_get_user (id : String) : RouteResponse :=
  ⟨HTTP_OK, CONTENT_TYPE_JSON,
    "\x7b\"id\": \"" ++ id ++ "\", \"name\": \"User Name\", \"email\": \"user@example.com\"\x7d"⟩

/-- Handler for `POST /users` (src/router.rs lines 196-198): echoes the
request body. -/
def handle_create_user (body : String) : RouteResponse :=
  ⟨HTTP_OK, CONTENT_TYPE_JSON, body⟩

/-- Handler for `GET /products` (src/router.rs lines 201-204). -/
def handle_get_all_products : RouteResponse :=
  ⟨HTTP_INTERNAL_ERROR, CONTENT_TYPE_JSON, "\x7b\"error\": \"Internal Server Error\"\x7d"⟩

/-- Model of `process_route` (src/router.rs lines 104-169): split the first
line on whitespace, reject request lines with fewer than two tokens, then
match on (method, path) in the source order of the match arms. -/
def process_route (request : String) : RouteResponse :=
  let parts := splitWhitespace (firstLine request)
  if parts.length < 2 then
    ⟨HTTP_NOT_FOUND, CONTENT_TYPE_JSON, "\x7b\"error\": \"Invalid request\"\x7d"⟩
  else
    let method := parts.getD 0 ""
    let path := parts.getD 1 ""
    if method = "GET" ∧ path = "/" then
      ⟨HTTP_OK, CONTENT_TYPE_JSON, "\x7b\"message\": \"Hello World!\"\x7d"⟩
    else if method = "GET" ∧ path = "/users" then
      handle_get_all_users
    else if method = "GET" ∧ starts_with path "/users/" then
      handle_get_user (strip_users path)
    else if method = "POST" ∧ path = "/users" then
      handle_create_user (extract_body_from_request request)
    else if method = "GET" ∧ path = "/products" then
      handle_get_all_products
    else
      ⟨HTTP_NOT_FOUND, CONTENT_TYPE_JSON, "\x7b\"error\": \"Route not found\"\x7d"⟩

/-- Route table of `process_route` as a predicate on (method, path): the
(method, path) pairs that reach some handler arm rather than the catch-all. -/
def matchesRoute (method path : String) : Prop :=
  (method = "GET" ∧ path = "/") ∨
  (method = "GET" ∧ path = "/users") ∨
  (method = "GET" ∧ starts_with path "/users/" = true) ∨
  (method = "POST" ∧ path = "/users") ∨
  (method = "GET" ∧ path = "/products")

instance (method path : String) : Decidable (matchesRoute method path) := by
  unfold matchesRoute; infer_instance

/-- Model of the response serialization in `process_request_response`
(src/router.rs lines 46-53): `format!("\x7b\x7d\x7b\x7d\x7b\x7d\x7b\x7d\r\n\r\n\x7b\x7d", status_line,
content_type, CONTENT_LENGTH, body.len(), body)`. Rust `String::len` is the
UTF-8 byte length, modelled by `String.utf8ByteSize`. -/
def format_response (r : RouteResponse) : String :=
  r.status ++ r.content_type ++ CONTENT_LENGTH ++ toString r.body.utf8ByteSize ++ CRLF ++ CRLF ++ r.body

/-- Status code token of a status line: its second whitespace-separated
token (`"HTTP/1.1 200 OK\r\n"` gives `"200"`). -/
def statusCode (statusLine : String) : String :=
  (splitWhitespace statusLine).getD 1 ""

/-! Connection task (src/main.rs lines 45-123 and src/router.rs lines 14-70). -/

/-- Result of the single `stream.read` of a connection task: `ok data` when
`n = data.length` bytes were read (so `ok ""` is the zero-byte read of a peer
that closed first), `err e` when the read failed. -/
inductive ReadResult where
  | ok (data : String)
  | err (e : String)
deriving DecidableEq, Repr

/-- States of the per-connection lifecycle of spec section 4.5. -/
inductive ConnState where
  | Reading
  | Parsed
  | Dispatching
  | Writing
  | Closed
deriving DecidableEq, Repr

/-- Observable outcome of one connection task: the states it passes through,
the byte strings it writes to the socket, and the request it dispatched to
the router (if any). -/
structure ConnOutcome where
  trace : List ConnState
  written : List String
  dispatched : Option String
deriving DecidableEq, Repr

/-- Model of `process_request_response` (src/router.rs lines 14-70): a
zero-byte read returns at once (no dispatch, nothing written); a successful
read dispatches the buffer to `process_route` and writes the formatted
response; a read error returns without writing. -/
def process_request_response (r : ReadResult) : ConnOutcome :=
  match r with
  | .ok data =>
    if data = "" then ⟨[.Reading, .Closed], [], none⟩
    else
      ⟨[.Reading, .Parsed, .Dispatching, .Writing, .Closed],
        [format_response (process_route data)], some data⟩
  | .err _ => ⟨[.Reading, .Closed], [], none⟩

/-- Hardcoded body of the inline task in src/main.rs line 97. -/
def main_response_body : String := "\x7b\"res\": \"Hello World\"\x7d"

/-- Hardcoded response of the inline task in src/main.rs lines 98-102. -/
def main_response : String :=
  "HTTP/1.1 200 OK\r\nContent-Type: application/json\r\nContent-Length: " ++
    toString main_response_body.utf8ByteSize ++ CRLF ++ CRLF ++ main_response_body

/-- Model of the spawned connection task in src/main.rs lines 76-122: a
zero-byte read returns at once; any other successful read writes the
hardcoded response (this variant never dispatches); a read error returns
without writing. -/
def main_conn_task (r : ReadResult) : ConnOutcome :=
  match r with
  | .ok data =>
    if data = "" then ⟨[.Reading, .Closed], [], none⟩
    else ⟨[.Reading, .Writing, .Closed], [main_response], none⟩
  | .err _ => ⟨[.Reading, .Closed], [], none⟩

/-! Acceptor (src/main.rs lines 35-124). -/

/-- Outcome of one iteration of the accept loop: either a task was spawned
for the accepted connection and the loop continues, or `main` returns an
error and the process terminates. -/
inductive AcceptOutcome where
  | continued (conn : Unit)
  | terminated (err : String)
deriving DecidableEq, Repr

/-- Model of one iteration of the accept loop (src/main.rs lines 35-45):
`listener.accept().await.map_err(|e| format!("Failed to accept connection:
\x7b\x7d", e))?` — a successful accept spawns a task and continues; an accept
error is wrapped and propagated out of `main` by the `?` operator. -/
def accept_step (r : Except String Unit) : AcceptOutcome :=
  match r with
  | .ok c => .continued c
  | .error e => .terminated ("Failed to accept connection: " ++ e)

/-- Model of the bind step (src/main.rs lines 23-25): a bind error is wrapped
and propagated out of `main` by the `?` operator. -/
def bind_step (r : Except String Unit) : Except String Unit :=
  match r with
  | .ok l => .ok l
  | .error e => .error ("Error binding to TCP port 3000: " ++ e)

/-! Database pool (src/db.rs). The pool itself is the external bb8 crate;
only its configuration and the initialize-once global live in src/db.rs, so
the pool dynamics and the cell are modelled from the spec (sections 3, 4.1
and 9). The configuration constants below are from src/db.rs lines 38-45. -/

/-- Pool configuration from src/db.rs line 39: `.max_size(15)`. -/
def max_size : Nat := 15

/-- Pool configuration from src/db.rs line 40: `.min_idle(Some(2))`. -/
def min_idle : Nat := 2

/-- Pool configuration from src/db.rs line 41:
`.connection_timeout(Duration::from_secs(15))`, in seconds. -/
def connection_timeout : Nat := 15

/-- Modelled from the spec: the slot bookkeeping of the bounded pool (spec
section 3), whose implementation (the bb8 crate) is not in src/. `checked_out`
slots are owned by in-flight handlers, `idle` slots are available. -/
structure PoolState where
  checked_out : Nat
  idle : Nat
deriving DecidableEq, Repr

/-- Modelled from the spec: the transitions of the pool of spec sections 3
and 4.1 — acquire an idle slot, create a slot on demand only below
`max_size`, release back to idle, discard on release past `max_lifetime`,
evict an idle slot past `idle_timeout`, replenish lazily below `max_size`. -/
inductive PoolStep : PoolState → PoolState → Prop where
  | acquireIdle (s : PoolState) (h : 0 < s.idle) :
      PoolStep s ⟨s.checked_out + 1, s.idle - 1⟩
  | acquireNew (s : PoolState) (hidle : s.idle = 0)
      (h : s.checked_out + s.idle < max_size) :
      PoolStep s ⟨s.checked_out + 1, s.idle⟩
  | release (s : PoolState) (h : 0 < s.checked_out) :
      PoolStep s ⟨s.checked_out - 1, s.idle + 1⟩
  | releaseDiscard (s : PoolState) (h : 0 < s.checked_out) :
      PoolStep s ⟨s.checked_out - 1, s.idle⟩
  | evictIdle (s : PoolState) (h : 0 < s.idle) :
      PoolStep s ⟨s.checked_out, s.idle - 1⟩
  | replenish (s : PoolState) (h : s.checked_out + s.idle < max_size) :
      PoolStep s ⟨s.checked_out, s.idle + 1⟩

/-- Modelled from the spec: the pool states reachable from initialization,
which creates `min_idle` idle slots and checks nothing out. -/
inductive PoolReachable : PoolState → Prop where
  | init : PoolReachable ⟨0, min_idle⟩
  | step {s t : PoolState} : PoolReachable s → PoolStep s t → PoolReachable t

/-- Failure kinds of `acquire` (spec section 4.1). -/
inductive PoolError where
  | poolExhausted
deriving DecidableEq, Repr

/-- Modelled from the spec: the wait loop of `acquire(timeout)`. `occ t` is
the number of checked-out slots at the instant `t` seconds after the call;
the loop polls once per second for `remaining` more seconds, succeeds at the
first instant with a slot free below `max_size`, and fails with
`poolExhausted` when the timeout elapses. The function is total, so an
exhausted wait terminates rather than blocking forever. -/
def acquireLoop (occ : Nat → Nat) (elapsed : Nat) : Nat → Except PoolError Nat
  | 0 => .error .poolExhausted
  | remaining + 1 =>
    if occ elapsed < max_size then .ok elapsed
    else acquireLoop occ (elapsed + 1) remaining

/-- Modelled from the spec: `acquire` with the configured
`connection_timeout` of src/db.rs line 41. -/
def acquire (occ : Nat → Nat) : Except PoolError Nat :=
  acquireLoop occ 0 connection_timeout

/-! Initialize-once global pool (src/db.rs lines 14, 50-54, 67-82). -/

/-- Modelled from the spec: the process-wide initialize-once global cell
(section 9: "Process-wide singleton pool (initialize-once global)", the std
`OnceLock` holding `DB_POOL`, whose implementation is not in src/): `set`
stores the value and succeeds only when the cell is empty; otherwise the
cell is unchanged and `set` reports failure. -/
def onceLockSet (cur : Option Nat) (v : Nat) : Option Nat × Bool :=
  match cur with
  | none => (some v, true)
  | some w => (some w, false)

/-- Global state of src/db.rs: the `DB_POOL` cell, holding the identity of
the stored pool when set. -/
structure DbGlobal where
  db_pool : Option Nat
deriving DecidableEq, Repr

/-- Outcome of `init_pool`: the Rust function either returns `Ok(())` or
would panic (it never does — the failed `set` is handled by
`unwrap_or_else`, which only logs). -/
inductive InitOutcome where
  | ok
  | panicked
deriving DecidableEq, Repr

/-- Model of `init_pool` (src/db.rs lines 22-58) after the pool value `p` has
been built: `DB_POOL.set(pool).unwrap_or_else(|_| eprintln!(...))` — the
cell is set when empty, a second attempt is ignored with a log line, and the
function returns `Ok(())` in both cases. -/
def init_pool (s : DbGlobal) (p : Nat) : DbGlobal × InitOutcome :=
  let r := onceLockSet s.db_pool p
  (⟨r.1⟩, .ok)

/-- Model of `get_connection` (src/db.rs lines 67-82): an error when the
global pool is not initialized, otherwise a connection drawn from the stored
pool (identified here by the pool it came from). -/
def get_connection (s : DbGlobal) : Except String Nat :=
  match s.db_pool with
  | none => .error "The pool is not initialized"
  | some p => .ok p

/-- Substring test on character lists: `needle` occurs somewhere in the
haystack. Used to state containment of a row in a response body. -/
def listContains (needle : List Char) : List Char → Bool
  | [] => needle.isPrefixOf []
  | c :: cs => needle.isPrefixOf (c :: cs) || listContains needle cs

/-- Concrete request of the spec scenario: `POST /users` with body
`\x7b"name":"Ada","age":30\x7d`. -/
def ada_request : String :=
  "POST /users HTTP/1.1\r\nContent-Length: 23\r\n\r\n\x7b\"name\":\"Ada\",\"age\":30\x7d"

/-! Theorems. First, sanity checks that the embedding evaluates as the
source program does on concrete requests. -/

example : splitWhitespace "GET /users/abc HTTP/1.1" = ["GET", "/users/abc", "HTTP/1.1"] := by
  decide

example : firstLine "GET /users HTTP/1.1\r\nHost: x\r\n\r\n" = "GET /users HTTP/1.1" := by decide

example : process_route "GET / HTTP/1.1\r\nHost: x\r\n\r\n" =
    ⟨HTTP_OK, CONTENT_TYPE_JSON, "\x7b\"message\": \"Hello World!\"\x7d"⟩ := by decide

example : statusCode HTTP_NOT_FOUND = "404" := by decide

example : extract_body_from_request "POST /users HTTP/1.1\r\n\r\nhello" = "hello" := by decide

/-- Projection fact used by C8: every arm of `process_route` sets the
content type to `CONTENT_TYPE_JSON`. -/
theorem process_route_content_type (request : String) :
    (process_route request).content_type = CONTENT_TYPE_JSON := by
  simp only [process_route]
  split_ifs <;>
    simp [handle_get_all_users, handle_get_user, handle_create_user, handle_get_all_products]

/-- Projection fact used by C8: every arm of `process_route` uses one of the
three status-line constants. -/
theorem process_route_status (request : String) :
    (process_route request).status = HTTP_OK ∨
    (process_route request).status = HTTP_NOT_FOUND ∨
    (process_route request).status = HTTP_INTERNAL_ERROR := by
  simp only [process_route]
  split_ifs <;>
    simp [handle_get_all_users, handle_get_user, handle_create_user, handle_get_all_products]

/-- Associativity of string concatenation, via the underlying lists. -/
theorem str_append_assoc (a b c : String) : a ++ b ++ c = a ++ (b ++ c) := by
  obtain ⟨la⟩ := a
  obtain ⟨lb⟩ := b
  obtain ⟨lc⟩ := c
  show String.mk (la ++ lb ++ lc) = String.mk (la ++ (lb ++ lc))
  rw [List.append_assoc]

/-- Claim C3: a well-formed request line (at least two tokens) whose
(method, path) pair matches none of the registered routes produces the
404 catch-all response. -/
theorem C3_unregistered_route_404 (request : String)
    (hlen : 2 ≤ (splitWhitespace (firstLine request)).length)
    (hm : ¬ matchesRoute ((splitWhitespace (firstLine request)).getD 0 "")
        ((splitWhitespace (firstLine request)).getD 1 "")) :
    process_route request =
      ⟨HTTP_NOT_FOUND, CONTENT_TYPE_JSON, "\x7b\"error\": \"Route not found\"\x7d"⟩ ∧
    statusCode HTTP_NOT_FOUND = "404" := by
  refine ⟨?_, by decide⟩
  simp only [process_route]
  split_ifs with h1 h2 h3 h4 h5 h6
  · omega
  · exact absurd (Or.inl h2) hm
  · exact absurd (Or.inr (Or.inl h3)) hm
  · exact absurd (Or.inr (Or.inr (Or.inl h4))) hm
  · exact absurd (Or.inr (Or.inr (Or.inr (Or.inl h5)))) hm
  · exact absurd (Or.inr (Or.inr (Or.inr (Or.inr h6)))) hm
  · rfl

/-- Witness for C3 at the unregistered pair (DELETE, /users). -/
theorem C3_witness :
    process_route "DELETE /users HTTP/1.1\r\nHost: x\r\n\r\n" =
      ⟨HTTP_NOT_FOUND, CONTENT_TYPE_JSON, "\x7b\"error\": \"Route not found\"\x7d"⟩ ∧
    statusCode HTTP_NOT_FOUND = "404" :=
  C3_unregistered_route_404 _ (by decide) (by decide)

/-- Claim C6 (corrected): a request line with fewer than two
whitespace-separated tokens produces the invalid-request response, whose
status is 404 — not 400 as the spec claims. -/
theorem C6_short_request_line_404 (request : String)
    (h : (splitWhitespace (firstLine request)).length < 2) :
    process_route request =
      ⟨HTTP_NOT_FOUND, CONTENT_TYPE_JSON, "\x7b\"error\": \"Invalid request\"\x7d"⟩ ∧
    statusCode HTTP_NOT_FOUND = "404" := by
  refine ⟨?_, by decide⟩
  simp only [process_route]
  rw [if_pos h]

/-- Witness for C6 at the one-token request line `GET`. -/
theorem C6_witness :
    process_route "GET\r\nHost: x\r\n\r\n" =
      ⟨HTTP_NOT_FOUND, CONTENT_TYPE_JSON, "\x7b\"error\": \"Invalid request\"\x7d"⟩ ∧
    statusCode HTTP_NOT_FOUND = "404" :=
  C6_short_request_line_404 _ (by decide)

/-- Claim C6 counterexample: on the one-token request line `GET` the
response status code is 404, not 400 as the claim states. -/
theorem C6_counterexample :
    statusCode (process_route "GET\r\nHost: y\r\n\r\n").status = "404" ∧
    statusCode (process_route "GET\r\nHost: y\r\n\r\n").status ≠ "400" := by
  decide

/-- Claim C1 (corrected): a GET whose path starts with `/users/` reaches
`handle_get_user` with the rest of the path spliced in verbatim and always
yields status 200 — the handler performs no integer validation, so a
non-integer segment does not give 400. -/
theorem C1_get_user_any_segment_ok (request : String)
    (hlen : 2 ≤ (splitWhitespace (firstLine request)).length)
    (hmethod : (splitWhitespace (firstLine request)).getD 0 "" = "GET")
    (hpath : starts_with ((splitWhitespace (firstLine request)).getD 1 "") "/users/" = true) :
    process_route request =
      handle_get_user (strip_users ((splitWhitespace (firstLine request)).getD 1 "")) ∧
    (process_route request).status = HTTP_OK ∧
    statusCode HTTP_OK = "200" := by
  have hroute : process_route request =
      handle_get_user (strip_users ((splitWhitespace (firstLine request)).getD 1 "")) := by
    simp only [process_route]
    split_ifs with h1 h2 h3 h4 h5 h6
    · omega
    · rw [h2.2] at hpath
      exact absurd hpath (by decide)
    · rw [h3.2] at hpath
      exact absurd hpath (by decide)
    · rfl
    · exact absurd ⟨hmethod, hpath⟩ h4
    · exact absurd ⟨hmethod, hpath⟩ h4
    · exact absurd ⟨hmethod, hpath⟩ h4
  exact ⟨hroute, by rw [hroute]; rfl, by decide⟩

/-- Witness for C1 at the non-integer segment `abc`. -/
theorem C1_witness :
    process_route "GET /users/abc HTTP/1.1\r\n\r\n" =
      handle_get_user
        (strip_users ((splitWhitespace (firstLine "GET /users/abc HTTP/1.1\r\n\r\n")).getD 1 "")) ∧
    (process_route "GET /users/abc HTTP/1.1\r\n\r\n").status = HTTP_OK ∧
    statusCode HTTP_OK = "200" :=
  C1_get_user_any_segment_ok _ (by decide) (by decide) (by decide)

/-- Claim C1 counterexample: for the non-integer segment `abc`, the response
status code is 200, not 400, and the handler splices `abc` into the body as
the id. -/
theorem C1_counterexample :
    statusCode (process_route "GET /users/abc HTTP/1.1\r\nHost: x\r\n\r\n").status = "200" ∧
    statusCode (process_route "GET /users/abc HTTP/1.1\r\nHost: x\r\n\r\n").status ≠ "400" ∧
    (process_route "GET /users/abc HTTP/1.1\r\nHost: x\r\n\r\n").body =
      "\x7b\"id\": \"abc\", \"name\": \"User Name\", \"email\": \"user@example.com\"\x7d" := by
  decide

/-- Claim C5 (corrected): `POST /users` with the Ada body returns 200 and
echoes the body, but nothing is stored: the body of every `GET /users`
response is the constant `\x7b"users": []\x7d`, so the created row never
becomes visible. -/
theorem C5_post_echo_get_users_constant :
    (process_route ada_request).status = HTTP_OK ∧
    (process_route ada_request).body = "\x7b\"name\":\"Ada\",\"age\":30\x7d" ∧
    ∀ request : String,
      2 ≤ (splitWhitespace (firstLine request)).length →
      (splitWhitespace (firstLine request)).getD 0 "" = "GET" →
      (splitWhitespace (firstLine request)).getD 1 "" = "/users" →
      (process_route request).body = "\x7b\"users\": []\x7d" := by
  refine ⟨by decide, by decide, ?_⟩
  intro request hlen hm hp
  simp only [process_route]
  split_ifs with h1 h2 h3 h4 h5 h6
  · omega
  · rw [hp] at h2
    exact absurd h2.2 (by decide)
  · rfl
  · exact absurd ⟨hm, hp⟩ h3
  · exact absurd ⟨hm, hp⟩ h3
  · exact absurd ⟨hm, hp⟩ h3
  · exact absurd ⟨hm, hp⟩ h3

/-- Witness for C5 at a concrete subsequent `GET /users` request. -/
theorem C5_witness :
    (process_route "GET /users HTTP/1.1\r\n\r\n").body = "\x7b\"users\": []\x7d" :=
  C5_post_echo_get_users_constant.2.2 _ (by decide) (by decide) (by decide)

/-- Claim C5 counterexample: the POST does return 200, but the body of a
subsequent `GET /users` is `\x7b"users": []\x7d` and does not contain the
created row (not even the substring `Ada`). -/
theorem C5_counterexample :
    (process_route ada_request).status = HTTP_OK ∧
    (process_route "GET /users HTTP/1.1\r\nHost: x\r\n\r\n").body = "\x7b\"users\": []\x7d" ∧
    listContains "Ada".data (process_route "GET /users HTTP/1.1\r\nHost: x\r\n\r\n").body.data
      = false := by
  decide

/-- Claim C8: every serialized response is status line, `Content-Type` and
`Content-Length` header lines, a blank CRLF line, then the body, with the
`Content-Length` value the UTF-8 byte length of that body; likewise for the
hardcoded response of src/main.rs. -/
theorem C8_response_format :
    (∀ request : String, ∃ sl : String,
      (process_route request).status = sl ++ CRLF ∧
      format_response (process_route request) =
        sl ++ CRLF ++
          (CONTENT_TYPE_JSON ++
            (CONTENT_LENGTH ++ toString (process_route request).body.utf8ByteSize ++ CRLF)) ++
          CRLF ++ (process_route request).body) ∧
    main_response =
      "HTTP/1.1 200 OK" ++ CRLF ++
        (CONTENT_TYPE_JSON ++
          (CONTENT_LENGTH ++ toString main_response_body.utf8ByteSize ++ CRLF)) ++
        CRLF ++ main_response_body := by
  constructor
  · intro request
    have hct := process_route_content_type request
    rcases process_route_status request with h | h | h
    · refine ⟨"HTTP/1.1 200 OK", by rw [h]; decide, ?_⟩
      simp only [format_response, h, hct]
      rw [show HTTP_OK = "HTTP/1.1 200 OK" ++ CRLF from by decide]
      simp only [str_append_assoc]
    · refine ⟨"HTTP/1.1 404 Not Found", by rw [h]; decide, ?_⟩
      simp only [format_response, h, hct]
      rw [show HTTP_NOT_FOUND = "HTTP/1.1 404 Not Found" ++ CRLF from by decide]
      simp only [str_append_assoc]
    · refine ⟨"HTTP/1.1 500 Internal Server Error", by rw [h]; decide, ?_⟩
      simp only [format_response, h, hct]
      rw [show HTTP_INTERNAL_ERROR = "HTTP/1.1 500 Internal Server Error" ++ CRLF from by decide]
      simp only [str_append_assoc]
  · decide

/-- Characterization of the separator scan: it returns `none` exactly when
`"\r\n\r\n"` occurs nowhere in the list. -/
theorem extractBodyAux_none_iff (l : List Char) :
    extractBodyAux l = none ↔ ¬ sepL <:+: l := by
  induction l with
  | nil => simp [extractBodyAux, List.infix_nil, sepL]
  | cons c cs ih =>
    simp only [extractBodyAux]
    split_ifs with hp
    · have hpre : sepL <+: c :: cs := by simpa using hp
      simp [hpre.isInfix]
    · have hnp : ¬ sepL <+: c :: cs := by simpa using hp
      simp [ih, List.infix_cons_iff, hnp]

/-- Characterization of the separator scan: a `some` result is the text
after the first occurrence of `"\r\n\r\n"`. -/
theorem extractBodyAux_some (l : List Char) : ∀ body : List Char,
    extractBodyAux l = some body →
    ∃ pre, l = pre ++ sepL ++ body ∧
      ∀ pre2 body2, l = pre2 ++ sepL ++ body2 → pre.length ≤ pre2.length := by
  induction l with
  | nil => intro body h; simp [extractBodyAux] at h
  | cons c cs ih =>
    intro body h
    simp only [extractBodyAux] at h
    split_ifs at h with hp
    · have hpre : sepL <+: c :: cs := by simpa using hp
      obtain ⟨t, ht⟩ := hpre
      have hb : body = t := by
        have hx := Option.some.inj h
        rw [← hx, ← ht, List.drop_left' (by rfl : sepL.length = 4)]
      refine ⟨[], ?_, fun pre2 body2 _ => by simp⟩
      rw [hb, ← ht]
      simp
    · obtain ⟨pre, hpre_eq, hmin⟩ := ih body h
      refine ⟨c :: pre, by rw [List.cons_append, List.cons_append, ← hpre_eq], ?_⟩
      intro pre2 body2 heq
      cases pre2 with
      | nil =>
        exfalso
        apply hp
        have : sepL <+: c :: cs := ⟨body2, by simpa using heq.symm⟩
        simpa using this
      | cons c2 pre2t =>
        have hcs : cs = pre2t ++ sepL ++ body2 := by
          have h2 := heq
          simp only [List.cons_append, List.cons.injEq] at h2
          exact h2.2
        have := hmin pre2t body2 hcs
        simp only [List.length_cons]
        omega

/-- Claim C9: when the buffer has no CRLF CRLF separator the extracted body
is empty, and when it does the extracted body is exactly the text after the
first occurrence of the separator. -/
theorem C9_extract_body_correct (request : String) :
    (¬ sepL <:+: request.data → extract_body_from_request request = "") ∧
    (sepL <:+: request.data →
      ∃ pre body, request.data = pre ++ sepL ++ body ∧
        extract_body_from_request request = String.mk body ∧
        ∀ pre2 body2, request.data = pre2 ++ sepL ++ body2 → pre.length ≤ pre2.length) := by
  constructor
  · intro h
    have hx : extractBodyAux request.data = none := (extractBodyAux_none_iff _).mpr h
    simp [extract_body_from_request, hx]
  · intro h
    cases haux : extractBodyAux request.data with
    | none => exact absurd h ((extractBodyAux_none_iff _).mp haux)
    | some body =>
      obtain ⟨pre, heq, hmin⟩ := extractBodyAux_some _ body haux
      exact ⟨pre, body, heq, by simp [extract_body_from_request, haux], hmin⟩

/-- Witness for C9 at a separator-free buffer. -/
theorem C9_witness : extract_body_from_request "GET / HTTP/1.1" = "" :=
  (C9_extract_body_correct "GET / HTTP/1.1").1 (by decide)

/-- Claim C7: a zero-byte first read moves the connection task straight from
`Reading` to `Closed`: nothing is written and nothing is dispatched, in both
the router variant and the inline variant of the task. -/
theorem C7_zero_read_closes (data : String) (h : data = "") :
    process_request_response (.ok data) = ⟨[.Reading, .Closed], [], none⟩ ∧
    main_conn_task (.ok data) = ⟨[.Reading, .Closed], [], none⟩ := by
  subst h
  exact ⟨by decide, by decide⟩

/-- Witness for C7 at the empty read. -/
theorem C7_witness :
    process_request_response (.ok "") = ⟨[.Reading, .Closed], [], none⟩ ∧
    main_conn_task (.ok "") = ⟨[.Reading, .Closed], [], none⟩ :=
  C7_zero_read_closes "" rfl

/-- Claim C4 counterexample: an accept error does not continue the loop —
it terminates `main` with the wrapped diagnostic. -/
theorem C4_counterexample :
    accept_step (.error "boom") = .terminated "Failed to accept connection: boom" ∧
    accept_step (.error "boom") ≠ .continued () := by
  decide

/-- Claim C4 (corrected): every accept error is wrapped with a diagnostic
and propagated out of `main` by `?`, terminating the accept loop and the
process exactly as a bind error does; the loop continues only on a
successful accept. -/
theorem C4_accept_error_terminates :
    (∀ e : String,
      accept_step (.error e) = .terminated ("Failed to accept connection: " ++ e) ∧
      ∀ c : Unit, accept_step (.error e) ≠ .continued c) ∧
    (∀ c : Unit, accept_step (.ok c) = .continued c) ∧
    (∀ e : String, bind_step (.error e) = .error ("Error binding to TCP port 3000: " ++ e)) := by
  refine ⟨fun e => ⟨rfl, fun c => by simp [accept_step]⟩, fun c => rfl, fun e => rfl⟩

/-- Witness for C4 at a concrete accept error and a concrete accept. -/
theorem C4_witness :
    accept_step (.error "io") = .terminated ("Failed to accept connection: " ++ "io") ∧
    accept_step (.ok ()) = .continued () :=
  ⟨(C4_accept_error_terminates.1 "io").1, C4_accept_error_terminates.2.1 ()⟩

/-- Single pool transitions preserve the slot bound. -/
theorem pool_step_bound {s t : PoolState} (hs : s.checked_out + s.idle ≤ max_size)
    (h : PoolStep s t) : t.checked_out + t.idle ≤ max_size := by
  cases h <;> simp_all <;> omega

/-- Every reachable pool state respects the slot bound. -/
theorem pool_reachable_bound (s : PoolState) (h : PoolReachable s) :
    s.checked_out + s.idle ≤ max_size := by
  induction h with
  | init => decide
  | step hr hstep ih => exact pool_step_bound ih hstep

/-- An acquire wait over a window in which the pool stays full exhausts its
whole window and fails. -/
theorem acquireLoop_exhausted (occ : Nat → Nat) :
    ∀ remaining elapsed,
      (∀ t, elapsed ≤ t → t < elapsed + remaining → occ t = max_size) →
      acquireLoop occ elapsed remaining = .error .poolExhausted := by
  intro remaining
  induction remaining with
  | zero => intro elapsed _; rfl
  | succ n ih =>
    intro elapsed h
    have hocc : occ elapsed = max_size := h elapsed (le_refl _) (by omega)
    simp only [acquireLoop]
    rw [if_neg (by omega)]
    exact ih (elapsed + 1) (fun t h1 h2 => h t (by omega) (by omega))

/-- Claim C2: in every reachable pool state `checked_out ≤ max_size` with
`max_size = 15` and `connection_timeout = 15`, and an `acquire` during which
the pool stays at `max_size` checked-out slots for the whole timeout window
returns `poolExhausted` (the wait loop is a total function, so it cannot
block forever). -/
theorem C2_pool_bounded_and_timeout :
    (∀ s : PoolState, PoolReachable s → s.checked_out ≤ max_size) ∧
    max_size = 15 ∧ connection_timeout = 15 ∧
    (∀ occ : Nat → Nat, (∀ t, t < connection_timeout → occ t = max_size) →
      acquire occ = .error .poolExhausted) := by
  refine ⟨fun s h => ?_, rfl, rfl, fun occ h => ?_⟩
  · have := pool_reachable_bound s h
    omega
  · exact acquireLoop_exhausted occ connection_timeout 0 (fun t _ h2 => h t (by omega))

/-- Witness for C2 at the initial pool state and a constantly-full pool. -/
theorem C2_witness :
    (⟨0, min_idle⟩ : PoolState).checked_out ≤ max_size ∧
    acquire (fun _ => max_size) = .error .poolExhausted :=
  ⟨C2_pool_bounded_and_timeout.1 _ PoolReachable.init,
   C2_pool_bounded_and_timeout.2.2.2 _ (fun _ _ => rfl)⟩

/-- Claim C10: once the global pool cell is set, a later `init_pool` leaves
it unchanged and still returns `Ok` (no panic), so the first initialization
wins and `get_connection` always draws from the first-stored pool. -/
theorem C10_init_once :
    (∀ (s : DbGlobal) (w q : Nat), s.db_pool = some w →
      init_pool s q = (s, .ok) ∧ get_connection (init_pool s q).1 = .ok w) ∧
    (∀ p q : Nat,
      (init_pool ⟨none⟩ p).1.db_pool = some p ∧
      init_pool (init_pool ⟨none⟩ p).1 q = ((init_pool ⟨none⟩ p).1, .ok) ∧
      get_connection (init_pool (init_pool ⟨none⟩ p).1 q).1 = .ok p) := by
  constructor
  · intro s w q h
    obtain ⟨pool⟩ := s
    simp only [DbGlobal.mk.injEq] at h
    subst h
    exact ⟨rfl, rfl⟩
  · intro p q
    exact ⟨rfl, rfl, rfl⟩

/-- Witness for C10 at an already-set cell. -/
theorem C10_witness :
    init_pool ⟨some 1⟩ 2 = (⟨some 1⟩, .ok) ∧
    get_connection (init_pool ⟨some 1⟩ 2).1 = .ok 1 :=
  C10_init_once.1 ⟨some 1⟩ 1 2 rfl

end RustBackend
